import Mathlib

/-
Shallow embedding of the MCP example servers (basic_server, elicitation_server,
progress_server) from examples/*/src/main.rs, together with a spec-modelled
Operation Registry (the rmcp ToolRouter implementation is not part of the
repository sources; only its tests and callers are).

Numbers: the Rust handlers compute over f64; every value the verified claims
exercise is a small integer, on which f64 arithmetic is exact, so f64 is
embedded as `Rat`.  Strings: Rust `String`/`str` is embedded as Lean `String`;
Rust byte slicing `&s[..7]` is embedded as a partial operation on the UTF-8
byte stream (`none` = panic).  Fallible handlers return `Except McpError _`;
a handler that can panic returns `Option (Except McpError _)` with `none`
modelling the panic.
-/

/-- JSON values, the model of `serde_json::Value` (numbers as exact rationals). -/
inductive Json where
  | null : Json
  | bool : Bool → Json
  | num : Rat → Json
  | str : String → Json
  | arr : List Json → Json
  | obj : List (String × Json) → Json

/-- Error codes of `rmcp::ErrorData` used by the example servers. -/
inductive ErrorCode where
  | invalidParams
  | internalError
  deriving DecidableEq

/-- Model of `rmcp::ErrorData` (`McpError`): code, message and optional structured detail. -/
structure McpError where
  code : ErrorCode
  message : String
  data : Option Json

/-- Model of `McpError::invalid_params(message, data)`. -/
def McpError.invalid_params (message : String) (data : Option Json) : McpError :=
  { code := .invalidParams, message := message, data := data }

/-- Model of `McpError::internal_error(message, data)`. -/
def McpError.internal_error (message : String) (data : Option Json) : McpError :=
  { code := .internalError, message := message, data := data }

/-- Content items of a tool result: `Content::text` and `Content::json`. -/
inductive Content where
  | text : String → Content
  | json : Json → Content

/-- Model of `rmcp::model::CallToolResult`. -/
structure CallToolResult where
  content : List Content
  isError : Bool

/-- Model of `CallToolResult::success(content)`. -/
def CallToolResult.success (content : List Content) : CallToolResult :=
  { content := content, isError := false }

/-- Does an optional structured error detail contain the given top-level key? -/
def detailHasKey (d : Option Json) (k : String) : Bool :=
  match d with
  | some (.obj fields) => fields.any (fun kv => kv.1 == k)
  | _ => false

/-- Take exactly `n` UTF-8 bytes from the front of a character list: the model
of Rust slicing `&s[..n]`.  Returns `none` (= panic) when the string has fewer
than `n` bytes or byte `n` is not a character boundary. -/
def takeBytes : List Char → Nat → Option (List Char)
  | _, 0 => some []
  | [], _ + 1 => none
  | c :: cs, n + 1 =>
      if c.utf8Size ≤ n + 1 then
        (takeBytes cs (n + 1 - c.utf8Size)).map (fun l => c :: l)
      else
        none

/-- Model of the Rust expression `&token[..7]`: the first 7 bytes of the
string, or a panic (`none`). -/
def sliceTo7 (s : String) : Option String :=
  (takeBytes s.data 7).map (fun l => String.mk l)

/-- Model of Rust `s.starts_with(p)`. -/
def strStartsWith (s p : String) : Bool :=
  p.data.isPrefixOf s.data

/-- Fractional decimal digits of `r / d` (fuelled; every value formatted by the
verified claims terminates well inside the fuel). -/
def fracDigits (d : Nat) : Nat → Nat → String
  | _, 0 => ""
  | r, fuel + 1 =>
      if r = 0 then ""
      else toString (r * 10 / d) ++ fracDigits d (r * 10 % d) fuel

/-- Model of Rust `Display` for `f64` on the exact rational the float denotes:
integral values print without a fractional part (Rust prints `15`, not `15.0`),
other values print their terminating decimal expansion. -/
def fmtF64 (q : Rat) : String :=
  let sign := if q.num < 0 then "-" else ""
  let n := q.num.natAbs
  let d := q.den
  if n % d = 0 then sign ++ toString (n / d)
  else sign ++ toString (n / d) ++ "." ++ fracDigits d (n % d) 40

/-- Abstract handler events: lock acquisition/release of the SessionState
mutex and suspension on an elicitation round-trip to the caller. -/
inductive HEvent where
  | lockAcquire
  | lockRelease
  | elicit
  deriving DecidableEq

/-- Scan a handler trace with the current lock depth: is an elicitation
suspension reached while the SessionState lock is held? -/
def elicitWhileLocked : Nat → List HEvent → Bool
  | _, [] => false
  | depth, .lockAcquire :: rest => elicitWhileLocked (depth + 1) rest
  | depth, .lockRelease :: rest => elicitWhileLocked (depth - 1) rest
  | depth, .elicit :: rest =>
      if depth = 0 then elicitWhileLocked depth rest else true

/-- The handler suspends on an external actor while holding the lock. -/
def holdsLockAcrossSuspension (tr : List HEvent) : Bool :=
  elicitWhileLocked 0 tr

namespace BasicServer

/-- Session state of the basic server: the operation counter. -/
structure ServerState where
  operation_count : Nat

/-- Parameters of the arithmetic tools (`a`, `b` are `f64`). -/
structure ArithmeticParams where
  a : Rat
  b : Rat

/-- Model of `BasicServer::calculator_add`: increments the operation counter,
then returns the text line and the structured payload of the sum. -/
def calculator_add (st : ServerState) (params : ArithmeticParams) :
    ServerState × Except McpError CallToolResult :=
  let result := params.a + params.b
  ({ operation_count := st.operation_count + 1 },
   .ok (CallToolResult.success [
      .text (fmtF64 params.a ++ " + " ++ fmtF64 params.b ++ " = " ++ fmtF64 result),
      .json (.obj [("operation", .str "add"), ("a", .num params.a),
                   ("b", .num params.b), ("result", .num result)])]))

/-- Model of `BasicServer::calculator_divide`: the counter is incremented
first; then a zero divisor short-circuits into `invalid_params` before the
division is evaluated. -/
def calculator_divide (st : ServerState) (params : ArithmeticParams) :
    ServerState × Except McpError CallToolResult :=
  ({ operation_count := st.operation_count + 1 },
   if params.b = 0 then
     .error (McpError.invalid_params "Cannot divide by zero"
       (some (.obj [("field", .str "b"), ("value", .num params.b),
                    ("suggestion", .str "Provide a non-zero divisor")])))
   else
     let result := params.a / params.b
     .ok (CallToolResult.success [
        .text (fmtF64 params.a ++ " ÷ " ++ fmtF64 params.b ++ " = " ++ fmtF64 result),
        .json (.obj [("operation", .str "divide"), ("a", .num params.a),
                     ("b", .num params.b), ("result", .num result)])]))

end BasicServer

namespace ElicitationServer

/-- Elicited GitHub personal access token. -/
structure GitHubToken where
  token : String

/-- Elicited confirmation for a destructive operation. -/
structure DeletionConfirmation where
  confirmation : String

/-- Elicited user profile information. -/
structure UserInfo where
  name : String
  email : String

/-- Parameters of `delete_data`. -/
structure DeleteDataParams where
  target : String

/-- Session state of the elicitation server: cached token and cached profile. -/
structure ServerState where
  github_token : Option String
  user_profile : Option UserInfo

/-- Outcome of one handler run: the lock/suspension event trace, the state on
exit, and the result (`none` = the handler panicked while building its
envelope). -/
structure HandlerRun where
  events : List HEvent
  state : ServerState
  result : Option (Except McpError CallToolResult)

/-- Model of `ElicitationServer::github_login`.  The handler locks the state
at entry and the guard is dropped only at return, so on a cache miss the
elicitation round-trip happens inside the lock; `resp` is the outcome of that
`elicit::<GitHubToken>` call (`Except.error` = channel error).  The 7-byte
slice of the token may panic. -/
def github_login (st : ServerState) (resp : Except String (Option GitHubToken)) :
    HandlerRun :=
  match st.github_token with
  | some cached_token =>
      { events := [.lockAcquire, .lockRelease]
        state := st
        result := (sliceTo7 cached_token).map (fun pfx =>
          .ok (CallToolResult.success [
            .text "Already logged in to GitHub",
            .json (.obj [("status", .str "already_authenticated"),
                         ("token_prefix", .str pfx)])])) }
  | none =>
      match resp with
      | .error e =>
          { events := [.lockAcquire, .elicit, .lockRelease]
            state := st
            result := some (.error (McpError.internal_error
              ("Failed to elicit token: " ++ e) none)) }
      | .ok none =>
          { events := [.lockAcquire, .elicit, .lockRelease]
            state := st
            result := some (.error (McpError.invalid_params
              "GitHub token is required for login"
              (some (.obj [("reason", .str "user_cancelled"),
                           ("suggestion", .str "Run the tool again when you have a GitHub token")])))) }
      | .ok (some token_data) =>
          if !strStartsWith token_data.token "ghp_"
              && !strStartsWith token_data.token "github_pat_" then
            { events := [.lockAcquire, .elicit, .lockRelease]
              state := st
              result := some (.error (McpError.invalid_params
                "Invalid token format. Token should start with 'ghp_' or 'github_pat_'"
                (some (.obj [("suggestion",
                  .str "Create a new personal access token at https://github.com/settings/tokens")])))) }
          else
            { events := [.lockAcquire, .elicit, .lockRelease]
              state := { st with github_token := some token_data.token }
              result := (sliceTo7 token_data.token).map (fun pfx =>
                .ok (CallToolResult.success [
                  .text "Successfully logged in to GitHub",
                  .json (.obj [("status", .str "authenticated"),
                               ("token_prefix", .str pfx)])])) }

/-- Model of `ElicitationServer::github_status`: reads the cache under the
lock; the 7-byte slice of a cached token may panic. -/
def github_status (st : ServerState) : HandlerRun :=
  { events := [.lockAcquire, .lockRelease]
    state := st
    result :=
      (match st.github_token with
       | some t => sliceTo7 t
       | none => some "none").map (fun pfx =>
        .ok (CallToolResult.success [
          .text (if st.github_token.isSome then "Authenticated (token: " ++ pfx ++ "...)"
                 else "Not authenticated"),
          .json (.obj [("authenticated", .bool st.github_token.isSome),
                       ("token_prefix", .str pfx)])])) }

/-- Model of `ElicitationServer::delete_data`: never touches the session
state; elicits a `DeletionConfirmation` and branches on the reply. -/
def delete_data (params : DeleteDataParams)
    (resp : Except String (Option DeletionConfirmation)) (st : ServerState) :
    HandlerRun :=
  match resp with
  | .error e =>
      { events := [.elicit], state := st
        result := some (.error (McpError.internal_error
          ("Failed to elicit confirmation: " ++ e) none)) }
  | .ok (some conf) =>
      if conf.confirmation = "DELETE" then
        { events := [.elicit], state := st
          result := some (.ok (CallToolResult.success [
            .text ("Deleted: " ++ params.target),
            .json (.obj [("status", .str "deleted"),
                         ("target", .str params.target)])])) }
      else
        { events := [.elicit], state := st
          result := some (.error (McpError.invalid_params
            ("Invalid confirmation '" ++ conf.confirmation ++ "'. Expected 'DELETE'")
            (some (.obj [("expected", .str "DELETE"),
                         ("received", .str conf.confirmation)])))) }
  | .ok none =>
      { events := [.elicit], state := st
        result := some (.ok (CallToolResult.success [
          .text "Deletion cancelled by user",
          .json (.obj [("status", .str "cancelled")])])) }

/-- Model of `ElicitationServer::get_user_profile`.  Like `github_login`, the
state lock is taken at entry and held across the elicitation on a cache miss. -/
def get_user_profile (st : ServerState) (resp : Except String (Option UserInfo)) :
    HandlerRun :=
  match st.user_profile with
  | some profile =>
      { events := [.lockAcquire, .lockRelease]
        state := st
        result := some (.ok (CallToolResult.success [
          .text ("Name: " ++ profile.name ++ "\nEmail: " ++ profile.email),
          .json (.obj [("name", .str profile.name), ("email", .str profile.email),
                       ("cached", .bool true)])])) }
  | none =>
      match resp with
      | .error e =>
          { events := [.lockAcquire, .elicit, .lockRelease]
            state := st
            result := some (.error (McpError.internal_error
              ("Failed to elicit user info: " ++ e) none)) }
      | .ok (some info) =>
          { events := [.lockAcquire, .elicit, .lockRelease]
            state := { st with user_profile := some { name := info.name, email := info.email } }
            result := some (.ok (CallToolResult.success [
              .text ("Name: " ++ info.name ++ "\nEmail: " ++ info.email),
              .json (.obj [("name", .str info.name), ("email", .str info.email),
                           ("cached", .bool false)])])) }
      | .ok none =>
          { events := [.lockAcquire, .elicit, .lockRelease]
            state := st
            result := some (.error (McpError.invalid_params
              "User profile information is required" none)) }

end ElicitationServer

namespace ProgressServer

/-- Model of `rmcp::model::NumberOrString` (progress-token payload). -/
inductive NumberOrString where
  | number : Int → NumberOrString
  | string : String → NumberOrString
  deriving DecidableEq

/-- Model of `rmcp::model::ProgressNotificationParam`. -/
structure ProgressEvent where
  token : NumberOrString
  progress : Rat
  total : Option Rat
  message : Option String

/-- The progress notifications emitted by `ProgressServer::process_large_file`
for `chunks = n`, in emission order: one event per chunk `i` (token
`Number(i)`, progress `i`, total `n`) followed by the final event (token
`Number(n)`, progress `n`, total `n`). -/
def process_large_file_events (n : Nat) : List ProgressEvent :=
  (List.range n).map (fun i =>
    { token := .number (i : Int)
      progress := (i : Rat)
      total := some (n : Rat)
      message := some ("Processing chunk " ++ toString (i + 1) ++ " of " ++ toString n) })
  ++ [{ token := .number (n : Int)
        progress := (n : Rat)
        total := some (n : Rat)
        message := some "Processing complete" }]

/-- Every event of the stream carries the same progress token as the first. -/
def sameToken (l : List ProgressEvent) : Bool :=
  match l with
  | [] => true
  | e :: rest => rest.all (fun e2 => e2.token == e.token)

/-- Validation errors of the parameter deserializer (serde error classes). -/
inductive ValidationError where
  | missingField : String → ValidationError
  | duplicateField : String → ValidationError
  | typeMismatch : String → ValidationError
  deriving DecidableEq

/-- Typed parameters of `process_large_file`. -/
structure ProcessFileParams where
  filename : String
  chunks : Nat

/-- Field-by-field visitor for `ProcessFileParams`, the model of the serde
derive: `filename` is a required string, `chunks` an optional non-negative
integer, duplicates of a known field are rejected, unknown fields are skipped. -/
def visitPF : List (String × Json) → Option String → Option Nat →
    Except ValidationError ProcessFileParams
  | [], fname, chunks =>
      match fname with
      | some f => .ok { filename := f, chunks := chunks.getD 100 }
      | none => .error (.missingField "filename")
  | (k, v) :: rest, fname, chunks =>
      if k = "filename" then
        match fname with
        | some _ => .error (.duplicateField "filename")
        | none =>
            match v with
            | .str s => visitPF rest (some s) chunks
            | _ => .error (.typeMismatch "filename")
      else if k = "chunks" then
        match chunks with
        | some _ => .error (.duplicateField "chunks")
        | none =>
            match v with
            | .num q =>
                if q.den = 1 ∧ 0 ≤ q.num then visitPF rest fname (some q.num.toNat)
                else .error (.typeMismatch "chunks")
            | _ => .error (.typeMismatch "chunks")
      else
        visitPF rest fname chunks

/-- Deserialize the raw parameter object of `process_large_file`; the default
for an absent `chunks` is `default_chunks() = 100`. -/
def deserializeProcessFileParams (fields : List (String × Json)) :
    Except ValidationError ProcessFileParams :=
  visitPF fields none none

end ProgressServer

namespace Registry

/-- Modelled from the spec: an operation descriptor of the Operation Registry
(§3, §4.1).  The registry implementation (rmcp's router) is not among the
repository sources; only its tests and callers are, so `register`/`lookup`
are taken from the contract in §4.1. -/
structure OperationDescriptor where
  name : String
  description : String
  deriving DecidableEq

/-- Modelled from the spec: registration failure of §4.1. -/
inductive RegistryError where
  | DuplicateOperation
  deriving DecidableEq

/-- Modelled from the spec: `lookup(name)` returns the descriptor registered
under `name`, if any. -/
def lookup (r : List OperationDescriptor) (n : String) : Option OperationDescriptor :=
  r.find? (fun d => d.name == n)

/-- Modelled from the spec: `register(descriptor)` appends in registration
order and fails with `DuplicateOperation` if the name is already present. -/
def register (r : List OperationDescriptor) (d : OperationDescriptor) :
    Except RegistryError (List OperationDescriptor) :=
  if (lookup r d.name).isSome then .error .DuplicateOperation
  else .ok (r ++ [d])

end Registry

/-- C2: invoking calculator_divide with a zero divisor (in particular a = 5,
b = 0) yields an InvalidParams error whose structured detail suggests a
non-zero divisor; the handler returns this error for every such input without
evaluating the division. -/
theorem calculator_divide_zero_divisor (st : BasicServer.ServerState) (a : Rat) :
    BasicServer.calculator_divide st { a := a, b := 0 } =
      ({ operation_count := st.operation_count + 1 },
       .error (McpError.invalid_params "Cannot divide by zero"
         (some (.obj [("field", .str "b"), ("value", .num 0),
                      ("suggestion", .str "Provide a non-zero divisor")])))) := by
  simp [BasicServer.calculator_divide]

/-- C3: calculator_add on a = 15, b = 27 returns a success envelope whose
first content item is the text "15 + 27 = 42" and whose second is the
structured payload with operation "add", a = 15, b = 27, result = 42. -/
theorem calculator_add_15_27 (st : BasicServer.ServerState) :
    BasicServer.calculator_add st { a := 15, b := 27 } =
      ({ operation_count := st.operation_count + 1 },
       .ok (CallToolResult.success [
          .text "15 + 27 = 42",
          .json (.obj [("operation", .str "add"), ("a", .num 15),
                       ("b", .num 27), ("result", .num 42)])])) := by
  have h42 : (15 : Rat) + 27 = 42 := by norm_num
  simp only [BasicServer.calculator_add, h42]
  rfl

/-- C9: calculator_divide commits the operation-count increment before the
zero-divisor check, so every invocation — including one with b = 0 that
returns InvalidParams — increments the counter by exactly 1. -/
theorem calculator_divide_counts_failures
    (st : BasicServer.ServerState) (p : BasicServer.ArithmeticParams) :
    (BasicServer.calculator_divide st p).1.operation_count = st.operation_count + 1 ∧
    (BasicServer.calculator_divide st { a := p.a, b := 0 }).2 =
      .error (McpError.invalid_params "Cannot divide by zero"
        (some (.obj [("field", .str "b"), ("value", .num 0),
                     ("suggestion", .str "Provide a non-zero divisor")]))) := by
  constructor
  · rfl
  · simp [BasicServer.calculator_divide]

/-- C5: an elicitation answered None makes github_login (required credential)
fail with an InvalidParams-class error, while delete_data (optional
confirmation) returns a success envelope reporting cancellation. -/
theorem elicitation_none_required_vs_optional
    (prof : Option ElicitationServer.UserInfo) (target : String)
    (st : ElicitationServer.ServerState) :
    (ElicitationServer.github_login { github_token := none, user_profile := prof }
        (.ok none)).result =
      some (.error (McpError.invalid_params "GitHub token is required for login"
        (some (.obj [("reason", .str "user_cancelled"),
                     ("suggestion", .str "Run the tool again when you have a GitHub token")])))) ∧
    (ElicitationServer.delete_data { target := target } (.ok none) st).result =
      some (.ok (CallToolResult.success [
        .text "Deletion cancelled by user",
        .json (.obj [("status", .str "cancelled")])])) := by
  exact ⟨rfl, rfl⟩

/-- C7 counterexample: the wrong-confirmation failure of delete_data is an
InvalidParams-class error whose structured detail carries only the keys
"expected" and "received" — it has no "suggestion" field, contrary to the
claim that every domain-specific failure's detail includes one. -/
theorem delete_data_wrong_phrase_lacks_suggestion :
    (ElicitationServer.delete_data { target := "all" }
        (.ok (some { confirmation := "delete" }))
        { github_token := none, user_profile := none }).result =
      some (.error (McpError.invalid_params
        "Invalid confirmation 'delete'. Expected 'DELETE'"
        (some (.obj [("expected", .str "DELETE"), ("received", .str "delete")])))) ∧
    detailHasKey (some (.obj [("expected", .str "DELETE"), ("received", .str "delete")]))
      "suggestion" = false := by
  exact ⟨rfl, rfl⟩

/-- C7 amended: both domain-specific failures are InvalidParams-class errors
with structured detail; the zero-divisor detail includes a "suggestion"
field, while the wrong-confirmation detail carries "expected"/"received" and
no suggestion. -/
theorem domain_failures_are_invalid_params
    (st : BasicServer.ServerState) (a : Rat)
    (est : ElicitationServer.ServerState) (target c : String)
    (h : c ≠ "DELETE") :
    (BasicServer.calculator_divide st { a := a, b := 0 }).2 =
      .error (McpError.invalid_params "Cannot divide by zero"
        (some (.obj [("field", .str "b"), ("value", .num 0),
                     ("suggestion", .str "Provide a non-zero divisor")]))) ∧
    detailHasKey (some (.obj [("field", .str "b"), ("value", .num 0),
                     ("suggestion", .str "Provide a non-zero divisor")])) "suggestion" = true ∧
    (ElicitationServer.delete_data { target := target }
        (.ok (some { confirmation := c })) est).result =
      some (.error (McpError.invalid_params
        ("Invalid confirmation '" ++ c ++ "'. Expected 'DELETE'")
        (some (.obj [("expected", .str "DELETE"), ("received", .str c)])))) ∧
    detailHasKey (some (.obj [("expected", .str "DELETE"), ("received", .str c)]))
      "suggestion" = false := by
  refine ⟨?_, rfl, ?_, rfl⟩
  · simp [BasicServer.calculator_divide]
  · simp [ElicitationServer.delete_data, h]

/-- C7 amended, witness: the amended statement instantiated at a = 5,
confirmation "no". -/
theorem domain_failures_are_invalid_params_witness :
    (BasicServer.calculator_divide { operation_count := 0 } { a := 5, b := 0 }).2 =
      .error (McpError.invalid_params "Cannot divide by zero"
        (some (.obj [("field", .str "b"), ("value", .num 0),
                     ("suggestion", .str "Provide a non-zero divisor")]))) ∧
    (ElicitationServer.delete_data { target := "all" }
        (.ok (some { confirmation := "no" }))
        { github_token := none, user_profile := none }).result =
      some (.error (McpError.invalid_params
        ("Invalid confirmation '" ++ "no" ++ "'. Expected 'DELETE'")
        (some (.obj [("expected", .str "DELETE"), ("received", .str "no")])))) :=
  ⟨(domain_failures_are_invalid_params { operation_count := 0 } 5
      { github_token := none, user_profile := none } "all" "no" (by decide)).1,
   (domain_failures_are_invalid_params { operation_count := 0 } 5
      { github_token := none, user_profile := none } "all" "no" (by decide)).2.2.1⟩

/-- C1 counterexample: on a cache miss, github_login suspends on the
elicitation while still holding the exclusive SessionState lock — the lock is
not released before the handler suspends on the Peer Channel call. -/
theorem github_login_holds_lock_across_elicit :
    holdsLockAcrossSuspension
      (ElicitationServer.github_login
        { github_token := none, user_profile := none } (.ok none)).events = true := by
  rfl

/-- C1 amended: the cache-hit paths of github_login and get_user_profile read
under the lock and release it before returning without any elicitation, but
the cache-miss paths acquire the lock at entry and hold it across the
elicitation suspension, releasing it only at return (the code never releases
before suspending nor re-acquires to commit). -/
theorem cache_handlers_lock_discipline
    (t : String) (prof : Option ElicitationServer.UserInfo)
    (tok : Option String) (p : ElicitationServer.UserInfo)
    (r : Except String (Option ElicitationServer.GitHubToken))
    (r' : Except String (Option ElicitationServer.UserInfo)) :
    (ElicitationServer.github_login { github_token := some t, user_profile := prof } r).events
      = [.lockAcquire, .lockRelease] ∧
    (ElicitationServer.github_login { github_token := none, user_profile := prof } r).events
      = [.lockAcquire, .elicit, .lockRelease] ∧
    holdsLockAcrossSuspension
      (ElicitationServer.github_login { github_token := none, user_profile := prof } r).events
      = true ∧
    (ElicitationServer.get_user_profile { github_token := tok, user_profile := some p } r').events
      = [.lockAcquire, .lockRelease] ∧
    (ElicitationServer.get_user_profile { github_token := tok, user_profile := none } r').events
      = [.lockAcquire, .elicit, .lockRelease] ∧
    holdsLockAcrossSuspension
      (ElicitationServer.get_user_profile { github_token := tok, user_profile := none } r').events
      = true := by
  have hl : (ElicitationServer.github_login
      { github_token := none, user_profile := prof } r).events
      = [.lockAcquire, .elicit, .lockRelease] := by
    rcases r with e | o
    · rfl
    · rcases o with _ | td
      · rfl
      · simp only [ElicitationServer.github_login]
        split <;> rfl
  have hp : (ElicitationServer.get_user_profile
      { github_token := tok, user_profile := none } r').events
      = [.lockAcquire, .elicit, .lockRelease] := by
    rcases r' with e | o
    · rfl
    · rcases o with _ | info <;> rfl
  refine ⟨rfl, hl, ?_, rfl, hp, ?_⟩
  · rw [hl]; rfl
  · rw [hp]; rfl

/-- Helper: a successful prefix check exhibits the string as the checked
pattern followed by a tail. -/
theorem isPrefixOf_append_chars :
    ∀ (p s : List Char), p.isPrefixOf s = true → ∃ t, s = p ++ t := by
  intro p
  induction p with
  | nil => exact fun s _ => ⟨s, rfl⟩
  | cons c cs ih =>
      intro s h
      cases s with
      | nil => simp [List.isPrefixOf] at h
      | cons d ds =>
          simp only [List.isPrefixOf, Bool.and_eq_true, beq_iff_eq] at h
          obtain ⟨t, ht⟩ := ih ds h.2
          exact ⟨t, by rw [h.1, ht, List.cons_append]⟩

/-- Helper: the 7-byte slice of any string starting with the ASCII pattern
"github_pat_" is defined and equals "github_". -/
theorem sliceTo7_githubPat (s : String) (h : strStartsWith s "github_pat_" = true) :
    sliceTo7 s = some "github_" := by
  obtain ⟨t, ht⟩ := isPrefixOf_append_chars _ _ h
  unfold sliceTo7
  rw [ht]
  rfl

/-- C10 counterexample: the token "ghp_xy" is accepted by the format check
(it starts with "ghp_") but has only 6 bytes, so building the success
envelope slices past the end of the string and github_login panics. -/
theorem github_login_short_token_panics :
    strStartsWith "ghp_xy" "ghp_" = true ∧
    (ElicitationServer.github_login { github_token := none, user_profile := none }
        (.ok (some { token := "ghp_xy" }))).result = none := by
  exact ⟨rfl, rfl⟩

/-- C10 amended: the 7-byte token slice is defined for every elicited or
cached token starting with "github_pat_" (whose first 7 bytes are ASCII), so
github_login and github_status build their envelopes without panicking there;
tokens that merely start with "ghp_" may be shorter than 7 bytes and panic. -/
theorem github_token_slice_defined
    (prof prof2 : Option ElicitationServer.UserInfo)
    (tok : ElicitationServer.GitHubToken) (t2 : String)
    (h : strStartsWith tok.token "github_pat_" = true)
    (h2 : strStartsWith t2 "github_pat_" = true) :
    (ElicitationServer.github_login { github_token := none, user_profile := prof }
        (.ok (some tok))).result =
      some (.ok (CallToolResult.success [
        .text "Successfully logged in to GitHub",
        .json (.obj [("status", .str "authenticated"),
                     ("token_prefix", .str "github_")])])) ∧
    (ElicitationServer.github_status
        { github_token := some t2, user_profile := prof2 }).result =
      some (.ok (CallToolResult.success [
        .text "Authenticated (token: github_...)",
        .json (.obj [("authenticated", .bool true),
                     ("token_prefix", .str "github_")])])) := by
  constructor
  · simp only [ElicitationServer.github_login, h, Bool.not_true, Bool.and_false,
      Bool.false_and, if_neg, sliceTo7_githubPat tok.token h]
    rfl
  · simp only [ElicitationServer.github_status, sliceTo7_githubPat t2 h2]
    rfl

/-- C10 amended, witness: the amended statement instantiated at a concrete
"github_pat_"-prefixed token. -/
theorem github_token_slice_defined_witness :
    (ElicitationServer.github_login { github_token := none, user_profile := none }
        (.ok (some { token := "github_pat_11AAAA" }))).result =
      some (.ok (CallToolResult.success [
        .text "Successfully logged in to GitHub",
        .json (.obj [("status", .str "authenticated"),
                     ("token_prefix", .str "github_")])])) :=
  (github_token_slice_defined none none { token := "github_pat_11AAAA" }
    "github_pat_11AAAA" rfl rfl).1

/-- C4 counterexample: with chunks = 2, process_large_file emits its events
on three different tokens (Number 0, Number 1, Number 2), so the stream is
not carried by one token. -/
theorem process_large_file_not_one_token :
    ProgressServer.sameToken (ProgressServer.process_large_file_events 2) = false := by
  rfl

/-- C4 amended: process_large_file configured for N chunks emits exactly N+1
events (N in-progress plus 1 final) whose i-th event carries its own token
Number(i) — a fresh token per event rather than one token for the stream —
with non-decreasing progress, total = N present on every event, and final
progress equal to that total. -/
theorem process_large_file_stream (n : Nat) :
    (ProgressServer.process_large_file_events n).length = n + 1 ∧
    (ProgressServer.process_large_file_events n).map (fun e => e.token)
      = (List.range (n + 1)).map (fun i : Nat => ProgressServer.NumberOrString.number (i : Int)) ∧
    List.Pairwise (fun a b => a ≤ b)
      ((ProgressServer.process_large_file_events n).map (fun e => e.progress)) ∧
    (ProgressServer.process_large_file_events n).map (fun e => e.total)
      = List.replicate (n + 1) (some (n : Rat)) ∧
    ((ProgressServer.process_large_file_events n).map (fun e => e.progress)).getLast?
      = some (n : Rat) := by
  have hprog : (ProgressServer.process_large_file_events n).map (fun e => e.progress)
      = (List.range n).map (fun i : Nat => (i : Rat)) ++ [(n : Rat)] := by
    unfold ProgressServer.process_large_file_events
    rw [List.map_append, List.map_map]
    rfl
  have htok : (ProgressServer.process_large_file_events n).map (fun e => e.token)
      = (List.range n).map (fun i : Nat => ProgressServer.NumberOrString.number (i : Int))
        ++ [ProgressServer.NumberOrString.number (n : Int)] := by
    unfold ProgressServer.process_large_file_events
    rw [List.map_append, List.map_map]
    rfl
  have htot : (ProgressServer.process_large_file_events n).map (fun e => e.total)
      = (List.range n).map (fun _ : Nat => some (n : Rat)) ++ [some (n : Rat)] := by
    unfold ProgressServer.process_large_file_events
    rw [List.map_append, List.map_map]
    rfl
  refine ⟨?_, ?_, ?_, ?_, ?_⟩
  · unfold ProgressServer.process_large_file_events
    rw [List.length_append, List.length_map, List.length_range]
    rfl
  · rw [htok, List.range_succ, List.map_append]
    rfl
  · rw [hprog]
    have hr : (List.range n).map (fun i : Nat => (i : Rat)) ++ [(n : Rat)]
        = (List.range (n + 1)).map (fun i : Nat => (i : Rat)) := by
      rw [List.range_succ, List.map_append]
      rfl
    rw [hr]
    exact (List.pairwise_lt_range (n + 1)).map (fun i : Nat => (i : Rat))
      (fun a b hab => show ((a : Rat) ≤ (b : Rat)) by exact_mod_cast Nat.le_of_lt hab)
  · rw [htot, List.map_const', List.length_range, List.replicate_succ']
  · rw [hprog]
    exact List.getLast?_concat _

/-- Helper: unknown fields (neither "filename" nor "chunks") are skipped by
the ProcessFileParams visitor without touching its accumulators. -/
theorem visitPF_skip_unknown :
    ∀ (l rest : List (String × Json)) (fn : Option String) (ch : Option Nat),
      (∀ kv ∈ l, kv.1 ≠ "filename" ∧ kv.1 ≠ "chunks") →
      ProgressServer.visitPF (l ++ rest) fn ch = ProgressServer.visitPF rest fn ch := by
  intro l
  induction l with
  | nil => intro rest fn ch _; rfl
  | cons kv tl ih =>
      intro rest fn ch h
      obtain ⟨k, v⟩ := kv
      have hk := h (k, v) (List.mem_cons_self _ _)
      simp only [List.cons_append, ProgressServer.visitPF, if_neg hk.1, if_neg hk.2]
      exact ih rest fn ch (fun x hx => h x (List.mem_cons_of_mem _ hx))

/-- C6: a raw payload for process_large_file with the required "filename"
present, "chunks" absent and any unknown extra fields validates successfully,
the unknown fields are ignored and the typed value receives the declared
default chunks = 100. -/
theorem process_file_params_defaults
    (pre post : List (String × Json)) (s : String)
    (h : ∀ kv ∈ pre ++ post, kv.1 ≠ "filename" ∧ kv.1 ≠ "chunks") :
    ProgressServer.deserializeProcessFileParams (pre ++ ("filename", Json.str s) :: post)
      = .ok { filename := s, chunks := 100 } := by
  unfold ProgressServer.deserializeProcessFileParams
  rw [visitPF_skip_unknown pre (("filename", Json.str s) :: post) none none
      (fun kv hkv => h kv (List.mem_append_left _ hkv))]
  have hstep : ProgressServer.visitPF (("filename", Json.str s) :: post) none none
      = ProgressServer.visitPF post (some s) none := rfl
  rw [hstep]
  have hpost := visitPF_skip_unknown post [] (some s) none
      (fun kv hkv => h kv (List.mem_append_right _ hkv))
  rw [List.append_nil] at hpost
  rw [hpost]
  rfl

/-- C6 witness: a concrete payload with two unknown extra fields and no
"chunks" deserializes to the default chunks = 100. -/
theorem process_file_params_defaults_witness :
    ProgressServer.deserializeProcessFileParams
      [("verbose", Json.bool true), ("filename", Json.str "data.txt"),
       ("retries", Json.num 3)]
      = .ok { filename := "data.txt", chunks := 100 } :=
  process_file_params_defaults [("verbose", Json.bool true)]
    [("retries", Json.num 3)] "data.txt" (by decide)

/-- C8: registering a fresh descriptor succeeds and appends it, lookup on its
name then returns exactly that descriptor, lookups of other names are
unchanged, and re-registering any descriptor under the already-present name
fails with DuplicateOperation leaving the registry unchanged. -/
theorem registry_register_lookup (r : List Registry.OperationDescriptor)
    (d : Registry.OperationDescriptor)
    (h : Registry.lookup r d.name = none) :
    Registry.register r d = .ok (r ++ [d]) ∧
    Registry.lookup (r ++ [d]) d.name = some d ∧
    (∀ n, n ≠ d.name → Registry.lookup (r ++ [d]) n = Registry.lookup r n) ∧
    (∀ d2 : Registry.OperationDescriptor, d2.name = d.name →
      Registry.register (r ++ [d]) d2 = .error .DuplicateOperation) := by
  have hfind : Registry.lookup (r ++ [d]) d.name = some d := by
    unfold Registry.lookup at h ⊢
    rw [List.find?_append, h]
    simp
  refine ⟨?_, hfind, ?_, ?_⟩
  · simp [Registry.register, h]
  · intro n hn
    have hone : List.find? (fun d' => d'.name == n) [d] = none := by
      have : (d.name == n) = false := beq_eq_false_iff_ne.mpr (fun he => hn he.symm)
      simp [List.find?, this]
    unfold Registry.lookup
    rw [List.find?_append, hone]
    cases List.find? (fun d' => d'.name == n) r <;> rfl
  · intro d2 hd2
    simp [Registry.register, hd2, hfind]

/-- C8 witness: registering calculator_add into an empty registry and looking
it up returns the registered descriptor. -/
theorem registry_register_lookup_witness :
    Registry.register [] { name := "calculator_add", description := "Add two numbers together" }
      = .ok [{ name := "calculator_add", description := "Add two numbers together" }] ∧
    Registry.lookup [{ name := "calculator_add", description := "Add two numbers together" }]
      "calculator_add"
      = some { name := "calculator_add", description := "Add two numbers together" } :=
  ⟨(registry_register_lookup [] _ rfl).1, (registry_register_lookup [] _ rfl).2.1⟩
